import Mathlib

/-!
Shallow embedding of the eligibility-rule evaluation and GIS-aware filtering
engine of the land_engine repository (src/app/engine/eligibility_crp.py,
src/app/engine/gis_processor.py and the filter functions of src/app/main.py),
together with theorems settling the specification claims.

Python floats are modelled as rationals; Python dicts as association lists
(in insertion order, with unique keys where the source guarantees them).
-/

set_option maxRecDepth 4000

attribute [local semireducible] Rat.add Rat.mul Rat.inv Rat.sub

namespace LandEngine

/-- A Python value as it can occur in a parcel attribute mapping or a rule
sheet cell: a string, a number (float or int, which print differently), or
a boolean — the types the spec admits for parcels. -/
inductive PyVal where
  | pstr (s : String)
  | pnum (q : ℚ)
  | pint (n : ℤ)
  | pbool (b : Bool)
deriving DecidableEq, Repr

/-- A parcel: a Python dict from attribute name to value, modelled as an
association list in insertion order. -/
abbrev Parcel := List (String × PyVal)

/-- Python `parcel.get(field, None)`: first binding of the key, if any. -/
def lookupField (parcel : Parcel) (field : String) : Option PyVal :=
  match parcel with
  | [] => none
  | (k, v) :: rest => if k = field then some v else lookupField rest field

/-- Python `str.strip()` on a character list: drop leading and trailing
whitespace. -/
def trimChars (cs : List Char) : List Char :=
  ((cs.dropWhile Char.isWhitespace).reverse.dropWhile Char.isWhitespace).reverse

/-- Python `str.strip()`. -/
def pyStrip (s : String) : String :=
  String.mk (trimChars s.toList)

/-- Python `str.lower()` (ASCII case folding suffices for this code base). -/
def pyLower (s : String) : String :=
  String.mk (s.toList.map Char.toLower)

/-- Python `str.split(",")` on a character list. -/
def splitCommaChars : List Char → List (List Char)
  | [] => [[]]
  | c :: rest =>
    let r := splitCommaChars rest
    if c = ',' then [] :: r
    else
      match r with
      | [] => [[c]]
      | h :: t => (c :: h) :: t

/-- Python `str.split(",")`: splitting the empty string yields `[""]`. -/
def pySplitComma (s : String) : List String :=
  (splitCommaChars s.toList).map String.mk

/-- Digits of a decimal literal folded into a natural number. -/
def digitsToNat (cs : List Char) : Nat :=
  cs.foldl (fun a c => a * 10 + (c.toNat - 48)) 0

/-- Python `float(s)` on a string: optional surrounding whitespace, optional
sign, decimal digits with an optional fractional part, optional exponent.
(The `inf`/`nan` literals and digit underscores accepted by CPython are not
modelled; no claim exercises them.)  Parse failure is `none`, mirroring the
`ValueError` that the source catches. -/
def parseFloat? (s : String) : Option ℚ :=
  let cs := trimChars s.toList
  let sgn : ℚ × List Char :=
    match cs with
    | '-' :: rest => (-1, rest)
    | '+' :: rest => (1, rest)
    | _ => (1, cs)
  let cs := sgn.2
  let ipart := cs.takeWhile Char.isDigit
  let cs := cs.dropWhile Char.isDigit
  let frac : List Char × List Char :=
    match cs with
    | '.' :: rest => (rest.takeWhile Char.isDigit, rest.dropWhile Char.isDigit)
    | _ => ([], cs)
  let fpart := frac.1
  let cs := frac.2
  if ipart.isEmpty ∧ fpart.isEmpty then none
  else
    let mantissa : ℚ :=
      sgn.1 * ((digitsToNat ipart : ℚ) + (digitsToNat fpart : ℚ) / (10 : ℚ) ^ fpart.length)
    match cs with
    | [] => some mantissa
    | e :: rest =>
      if e = 'e' ∨ e = 'E' then
        let esgn : Bool × List Char :=
          match rest with
          | '-' :: r => (false, r)
          | '+' :: r => (true, r)
          | _ => (true, rest)
        let edigits := esgn.2.takeWhile Char.isDigit
        let rest2 := esgn.2.dropWhile Char.isDigit
        if edigits.isEmpty ∨ ¬ rest2.isEmpty then none
        else if esgn.1 then some (mantissa * (10 : ℚ) ^ digitsToNat edigits)
        else some (mantissa / (10 : ℚ) ^ digitsToNat edigits)
      else none

/-- Python `str()` of a numeric value.  A CPython float prints with at least
one digit after the decimal point and the shortest decimal expansion; that is
modelled by the smallest number of fractional digits making the scaled value
integral (scientific notation for extreme magnitudes is not modelled). -/
def pyStrOfRat (q : ℚ) : String :=
  match (List.range 50).find? (fun k => (q * (10 : ℚ) ^ (k + 1)).den == 1) with
  | some k =>
    let n : Int := (q * (10 : ℚ) ^ (k + 1)).num
    let s := toString n.natAbs
    let s := if s.length < k + 2 then String.mk (List.replicate (k + 2 - s.length) '0') ++ s else s
    (if q < 0 then "-" else "") ++ s.take (s.length - (k + 1)) ++ "." ++ s.drop (s.length - (k + 1))
  | none => toString q

/-- Python `str(v)` for an optional parcel value: a missing field (Python
`None`) prints as the literal text `None`; booleans as `True`/`False`. -/
def pyStr (v : Option PyVal) : String :=
  match v with
  | none => "None"
  | some (.pstr s) => s
  | some (.pnum q) => pyStrOfRat q
  | some (.pint n) => toString n
  | some (.pbool b) => if b then "True" else "False"

/-- Python `float(v)` for an optional parcel value: `float(None)` raises
(`none` here), booleans coerce to 0/1, strings are parsed. -/
def pyFloat? (v : Option PyVal) : Option ℚ :=
  match v with
  | none => none
  | some (.pstr s) => parseFloat? s
  | some (.pnum q) => some q
  | some (.pint n) => some (n : ℚ)
  | some (.pbool b) => some (if b then 1 else 0)

/-- The bounds of a `between` payload: `str(value).split(",")`, trim each
part, require exactly two parts, parse both as floats. -/
def betweenBounds? (value : String) : Option (ℚ × ℚ) :=
  match (pySplitComma value).map pyStrip with
  | [a, b] =>
    match parseFloat? a, parseFloat? b with
    | some lo, some hi => some (lo, hi)
    | _, _ => none
  | _ => none

/-- Function `check_condition` from src/app/engine/eligibility_crp.py: evaluate one
eligibility condition on a parcel dict; total, fail-closed. -/
def check_condition (parcel : Parcel) (field operator value : String) : Bool :=
  let v := lookupField parcel field
  let op := pyLower (pyStrip operator)
  if op = "in" then
    ((pySplitComma value).map pyStrip).contains (pyStr v)
  else if op = "==" then
    pyStr v == value
  else if op = "!=" then
    pyStr v != value
  else
    match pyFloat? v with
    | none => false
    | some vn =>
      if op = "between" then
        match betweenBounds? value with
        | some (lo, hi) => decide (lo ≤ vn ∧ vn ≤ hi)
        | none => false
      else
        match parseFloat? value with
        | none => false
        | some vl =>
          if op = ">" then decide (vn > vl)
          else if op = "<" then decide (vn < vl)
          else if op = ">=" then decide (vn ≥ vl)
          else if op = "<=" then decide (vn ≤ vl)
          else false

/-- One eligibility condition of the rule map: the field/operator/value
dicts built by `build_crp_rule_map`. -/
structure Condition where
  field : String
  operator : String
  value : String
deriving DecidableEq, Repr

/-- The rule map: a Python dict from practice code to condition list,
modelled as an association list in insertion order (keys unique by
construction). -/
abbrev RuleMap := List (String × List Condition)

/-- Dict key lookup on a rule map. -/
def lookupRule (m : RuleMap) (code : String) : Option (List Condition) :=
  match m with
  | [] => none
  | (k, cs) :: rest => if k = code then some cs else lookupRule rest code

/-- Python `rule_map.setdefault(code, []).append(cond)` on an insertion-ordered
dict: append to an existing entry, else add a new key at the end. -/
def insertCond (m : RuleMap) (code : String) (c : Condition) : RuleMap :=
  match m with
  | [] => [(code, [c])]
  | (k, cs) :: rest =>
    if k = code then (k, cs ++ [c]) :: rest else (k, cs) :: insertCond rest code c

/-- A tabular rule source (pandas DataFrame): named columns and rows whose
cells line up with the columns positionally. -/
structure Df where
  columns : List String
  rows : List (List PyVal)

/-- Python `str(row.get(name, ""))` for a row of a DataFrame whose columns have
already been normalised: locate the column and print the cell.  The `""`
defaults mirror `row.get`'s default; they are unreachable once the schema
check has passed on well-formed frames. -/
def cellStr (cols : List String) (row : List PyVal) (name : String) : String :=
  match cols.indexOf? name with
  | some i =>
    match row.get? i with
    | some v => pyStr (some v)
    | none => ""
  | none => ""

/-- The four required columns of the rule sheet. -/
def requiredCols : List String :=
  ["crp_practice_code", "field_name", "operator", "value"]

/-- The body of `build_crp_rule_map`'s row loop: trim the four cells, skip
the row if code, field or operator is empty, else append the condition
under its practice code. -/
def ruleRowStep (cols : List String) (m : RuleMap) (row : List PyVal) : RuleMap :=
  let code := pyStrip (cellStr cols row "crp_practice_code")
  let field := pyStrip (cellStr cols row "field_name")
  let operator := pyStrip (cellStr cols row "operator")
  let value := pyStrip (cellStr cols row "value")
  if code = "" ∨ field = "" ∨ operator = "" then m
  else insertCond m code ⟨field, operator, value⟩

/-- Function `build_crp_rule_map` from src/app/engine/eligibility_crp.py: normalise
column names (strip + lowercase), return `{}` if any required column is
missing, otherwise fold the rows through `ruleRowStep`. -/
def build_crp_rule_map (df : Option Df) : RuleMap :=
  match df with
  | none => []
  | some df =>
    let cols := df.columns.map (fun c => pyLower (pyStrip c))
    if requiredCols.all (fun r => cols.contains r) then
      df.rows.foldl (ruleRowStep cols) []
    else []

/-- Specification-side reading of one source row (for the refinement
statement of the Rule Map invariant): the (code, condition) pair the row
contributes, or `none` for an incomplete row. -/
def ruleRowEntry? (cols : List String) (row : List PyVal) : Option (String × Condition) :=
  let code := pyStrip (cellStr cols row "crp_practice_code")
  let field := pyStrip (cellStr cols row "field_name")
  let operator := pyStrip (cellStr cols row "operator")
  let value := pyStrip (cellStr cols row "value")
  if code = "" ∨ field = "" ∨ operator = "" then none
  else some (code, ⟨field, operator, value⟩)

/-- The conditions contributed by a row list for one practice code, in row
order. -/
def condsFromRows (cols : List String) (rows : List (List PyVal)) (code : String) :
    List Condition :=
  ((rows.filterMap (ruleRowEntry? cols)).filter (fun e => e.1 == code)).map Prod.snd

/-- Specification-side reading of the whole sheet, following the spec's
words: the conditions contributed for one practice code, in source row
order (empty when the schema check fails). -/
def ruleCondsSpec (df : Df) (code : String) : List Condition :=
  let cols := df.columns.map (fun c => pyLower (pyStrip c))
  if requiredCols.all (fun r => cols.contains r) then condsFromRows cols df.rows code
  else []

/-- Function `eligible_crp_practices`: the practice codes all of whose conditions
pass on the parcel (an empty rule map yields an empty list). -/
def eligible_crp_practices (parcel : Parcel) (rule_map : RuleMap) : List String :=
  if rule_map.isEmpty then []
  else
    (rule_map.filter
      (fun e => e.2.all (fun c => check_condition parcel c.field c.operator c.value))).map
      Prod.fst

/-- Prefix test on character lists, by structural recursion (the core
String functions do not reduce in the kernel). -/
def isPrefixChars : List Char → List Char → Bool
  | [], _ => true
  | _ :: _, [] => false
  | a :: as, b :: bs => (a = b) && isPrefixChars as bs

/-- Substring containment on character lists. -/
def containsChars (needle : List Char) : List Char → Bool
  | [] => isPrefixChars needle []
  | c :: t => isPrefixChars needle (c :: t) || containsChars needle t

/-- Python `sub in hay` on strings. -/
def strContains (hay sub : String) : Bool :=
  containsChars sub.toList hay.toList

/-- Function `_is_wetland_like_name` from src/app/main.py. -/
def _is_wetland_like_name (name : String) : Bool :=
  let n := pyLower name
  ["wetland", "marsh", "bog", "floodplain", "riparian", "stream buffer"].any
    (fun k => strContains n k)

/-- Function `_is_erosion_like_name` from src/app/main.py. -/
def _is_erosion_like_name (name : String) : Bool :=
  let n := pyLower name
  ["erosion", "gully", "terrace", "waterway", "grade stabilization", "diversion"].any
    (fun k => strContains n k)

/-- Function `_is_pasture_like_name` from src/app/main.py (defined, not consumed by
any filter). -/
def _is_pasture_like_name (name : String) : Bool :=
  let n := pyLower name
  ["pasture", "grazing", "rangeland", "forage"].any (fun k => strContains n k)

/-- The `GISAttributes` pydantic model of src/app/main.py (floats as ℚ). -/
structure GISAttributes where
  lat : Option ℚ
  lon : Option ℚ
  land_cover : String
  slope_percent : ℚ
  hydric_percent : ℚ
  nwi_class : String
  in_100yr_floodplain : Bool
  distance_to_stream_m : ℚ
deriving DecidableEq, Repr

/-- Model `CrpPracticeRevenue` from src/app/programs/models_crp.py. -/
structure CrpPracticeRevenue where
  crp_practice_code : String
  crp_practice_name : String
  base_rental_rate : ℚ
  annual_payment : ℚ
  total_contract_payment : ℚ
deriving DecidableEq, Repr

/-- Model `CrpQuoteResponse` from src/app/programs/models_crp.py. -/
structure CrpQuoteResponse where
  state : String
  county : String
  acres : ℚ
  practices : List CrpPracticeRevenue
deriving DecidableEq, Repr

/-- Model `EqipPracticeQuote` from src/app/programs/models_eqip.py. -/
structure EqipPracticeQuote where
  practice_code : String
  scenario_code : String
  scenario_name : String
  unit : String
  payment_type : String
  unit_rate : ℚ
  payment_basis : String
  payment_per_acre : ℚ
  annual_payment : ℚ
  total_contract_payment : ℚ
  contract_years : ℤ
deriving DecidableEq, Repr

/-- Model `EqipQuoteResponse` from src/app/programs/models_eqip.py. -/
structure EqipQuoteResponse where
  state : String
  county : String
  acres : ℚ
  practices : List EqipPracticeQuote
deriving DecidableEq, Repr

/-- Model `CspPracticeQuote` from src/app/programs/models_csp.py. -/
structure CspPracticeQuote where
  practice_code : String
  scenario_code : String
  scenario_name : String
  unit : String
  payment_type : String
  unit_rate : ℚ
  payment_basis : String
  payment_per_acre : ℚ
  annual_payment : ℚ
  total_contract_payment : ℚ
  contract_years : ℤ
deriving DecidableEq, Repr

/-- Model `CspQuoteResponse` from src/app/programs/models_csp.py. -/
structure CspQuoteResponse where
  state : String
  county : String
  acres : ℚ
  practices : List CspPracticeQuote
deriving DecidableEq, Repr

/-- The synthetic parcel dict built inside `filter_crp_by_gis`. -/
def crpParcel (crp : CrpQuoteResponse) (gis : GISAttributes) : Parcel :=
  [("state", .pstr crp.state),
   ("county", .pstr crp.county),
   ("acres", .pnum crp.acres),
   ("land_cover", .pstr gis.land_cover),
   ("slope_percent", .pnum gis.slope_percent),
   ("hydric_percent", .pnum gis.hydric_percent),
   ("nwi_class", .pstr gis.nwi_class),
   ("in_100yr_floodplain", .pbool gis.in_100yr_floodplain),
   ("distance_to_stream_m", .pnum gis.distance_to_stream_m)]

/-- Function `filter_crp_by_gis` from src/app/main.py, with the process-wide rule map
(`get_crp_rule_map()`) passed explicitly.  The `eligible_codes` value is
`None` exactly when the rule map is falsy (empty), as in the source's
`eligible_crp_practices(...) if rule_map else None`. -/
def filter_crp_by_gis (crp : CrpQuoteResponse) (gis : GISAttributes)
    (rule_map : RuleMap) : CrpQuoteResponse :=
  if pyLower gis.land_cover = "developed" then
    { crp with practices := [] }
  else
    let parcel := crpParcel crp gis
    let eligible_codes : Option (List String) :=
      if rule_map.isEmpty then none else some (eligible_crp_practices parcel rule_map)
    let dry_upland : Bool := (gis.nwi_class == "NONE") && decide (gis.hydric_percent < 20)
    { crp with
      practices := crp.practices.filter (fun p =>
        (match eligible_codes with
         | some ec => ec.isEmpty || ec.contains p.crp_practice_code
         | none => true)
        && !(dry_upland && _is_wetland_like_name p.crp_practice_name)) }

/-- Function `filter_eqip_by_gis` from src/app/main.py. -/
def filter_eqip_by_gis (eqip : EqipQuoteResponse) (gis : GISAttributes) :
    EqipQuoteResponse :=
  let has_wet_signal : Bool := (gis.nwi_class != "NONE") || decide (gis.hydric_percent ≥ 20)
  let low_slope : Bool := decide (gis.slope_percent < 2)
  { eqip with
    practices := eqip.practices.filter (fun p =>
      !(_is_wetland_like_name p.scenario_name && !has_wet_signal)
      && !(_is_erosion_like_name p.scenario_name && low_slope)) }

/-- Function `filter_csp_by_gis` from src/app/main.py (same policy as EQIP). -/
def filter_csp_by_gis (csp : CspQuoteResponse) (gis : GISAttributes) :
    CspQuoteResponse :=
  let has_wet_signal : Bool := (gis.nwi_class != "NONE") || decide (gis.hydric_percent ≥ 20)
  let low_slope : Bool := decide (gis.slope_percent < 2)
  { csp with
    practices := csp.practices.filter (fun p =>
      !(_is_wetland_like_name p.scenario_name && !has_wet_signal)
      && !(_is_erosion_like_name p.scenario_name && low_slope)) }

/-- Python `x % m` for a positive modulus `m` on (finite) floats:
`x - m * floor(x / m)`, the result lying in `[0, m)`. -/
def pymod (x m : ℚ) : ℚ :=
  x - m * (⌊x / m⌋ : ℤ)

/-- Python `float(round(x, 1))`.  CPython rounds ties to even on the binary
representation; ties are irrelevant to every claim below, so round-half-up
on exact rationals stands in. -/
def roundTo1 (q : ℚ) : ℚ :=
  (round (10 * q) : ℤ) / 10

/-- Function `_classify_land_cover` from src/app/engine/gis_processor.py.  The
Python condition `lat and lat > 44.5` is truthiness-aware: a `None` or
zero latitude fails it.  (`county` is accepted and ignored, as in the
source.) -/
def _classify_land_cover (state : String) (_county : String) (lat : Option ℚ) : String :=
  let s := pyLower state
  if strContains s "michigan" then
    match lat with
    | some l => if l ≠ 0 ∧ (89 : ℚ) / 2 < l then "forest" else "mixed_agriculture"
    | none => "mixed_agriculture"
  else if strContains s "iowa" || strContains s "illinois" then "cropland"
  else if strContains s "texas" then "rangeland"
  else "cropland"

/-- Function `_estimate_slope_percent` from src/app/engine/gis_processor.py. -/
def _estimate_slope_percent (lat lon : Option ℚ) (state : String) : ℚ :=
  match lat, lon with
  | some _, some lo =>
    let base : ℚ :=
      if ["colorado", "montana", "utah", "wyoming"].contains (pyLower state) then 8 else 2
    base + pymod |lo| 3
  | _, _ => 2

/-- Function `_estimate_hydric_percent` from src/app/engine/gis_processor.py:
`sum(ord(c) for c in (state+county).lower()) % 60`. -/
def _estimate_hydric_percent (state county : String) : ℚ :=
  ((((pyLower (state ++ county)).toList.map Char.toNat).sum % 60 : ℕ) : ℚ)

/-- Function `_classify_nwi` from src/app/engine/gis_processor.py. -/
def _classify_nwi (_lat : Option ℚ) (hydric : ℚ) : String :=
  if 40 < hydric then "PEM1A"
  else if 20 < hydric then "PUBH"
  else "NONE"

/-- Function `_estimate_floodplain` from src/app/engine/gis_processor.py. -/
def _estimate_floodplain (hydric slope : ℚ) : Bool :=
  decide (35 < hydric) && decide (slope < 4)

/-- Function `_estimate_distance_to_stream_m` from src/app/engine/gis_processor.py. -/
def _estimate_distance_to_stream_m (lat lon : Option ℚ) : ℚ :=
  match lat, lon with
  | some la, some lo => 100 + pymod |la * lo| 900
  | _, _ => 500

/-- Function `process_parcel_geometry` from src/app/engine/gis_processor.py.  Its
input is the result of `_parse_point_from_geom`, which by inspection of
every return site yields either both coordinates or neither; that codomain
is taken as the embedded input type. -/
def process_parcel_geometry (pt : Option (ℚ × ℚ)) (state county : String) :
    GISAttributes :=
  let lat := pt.map Prod.fst
  let lon := pt.map Prod.snd
  let land_cover := _classify_land_cover state county lat
  let slope := _estimate_slope_percent lat lon state
  let hydric := _estimate_hydric_percent state county
  let nwi := _classify_nwi lat hydric
  let flood := _estimate_floodplain hydric slope
  let dist := _estimate_distance_to_stream_m lat lon
  { lat := lat
    lon := lon
    land_cover := land_cover
    slope_percent := roundTo1 slope
    hydric_percent := roundTo1 hydric
    nwi_class := nwi
    in_100yr_floodplain := flood
    distance_to_stream_m := roundTo1 dist }

/-- C4: `check_condition` is total (a Lean function into `Bool` by
construction, mirroring that the source never raises) and fail-closed: an
unknown operator (anything outside in, ==, !=, between, >, <, >=, <= after
trimming and lowercasing), a missing parcel field on a numeric branch, or a
numeric coercion failure on either side resolves to `false`. -/
theorem check_condition_fail_closed :
    ∀ (parcel : Parcel) (field operator value : String),
      (pyLower (pyStrip operator) ∉
          (["in", "==", "!=", "between", ">", "<", ">=", "<="] : List String) →
        check_condition parcel field operator value = false)
      ∧ (pyLower (pyStrip operator) ∈ (["between", ">", "<", ">=", "<="] : List String) →
          lookupField parcel field = none →
          check_condition parcel field operator value = false)
      ∧ (pyLower (pyStrip operator) ∈ (["between", ">", "<", ">=", "<="] : List String) →
          pyFloat? (lookupField parcel field) = none →
          check_condition parcel field operator value = false)
      ∧ (pyLower (pyStrip operator) ∈ ([">", "<", ">=", "<="] : List String) →
          parseFloat? value = none →
          check_condition parcel field operator value = false)
      ∧ (pyLower (pyStrip operator) = "between" → betweenBounds? value = none →
          check_condition parcel field operator value = false) := by
  intro parcel field operator value
  simp only [check_condition, List.mem_cons, List.not_mem_nil, or_false] at *
  refine ⟨?_, ?_, ?_, ?_, ?_⟩
  · intro h
    push_neg at h
    obtain ⟨h1, h2, h3, h4, h5, h6, h7, h8⟩ := h
    rw [if_neg h1, if_neg h2, if_neg h3]
    cases hv : pyFloat? (lookupField parcel field) with
    | none => rfl
    | some vn =>
      dsimp only
      rw [if_neg h4]
      cases hp : parseFloat? value with
      | none => rfl
      | some vl =>
        dsimp only
        rw [if_neg h5, if_neg h6, if_neg h7, if_neg h8]
  · intro hop hnone
    have hfv : pyFloat? (lookupField parcel field) = none := by rw [hnone]; rfl
    have h1 : pyLower (pyStrip operator) ≠ "in" := by rcases hop with h | h | h | h | h <;> simp [h]
    have h2 : pyLower (pyStrip operator) ≠ "==" := by rcases hop with h | h | h | h | h <;> simp [h]
    have h3 : pyLower (pyStrip operator) ≠ "!=" := by rcases hop with h | h | h | h | h <;> simp [h]
    rw [if_neg h1, if_neg h2, if_neg h3, hfv]
  · intro hop hfv
    have h1 : pyLower (pyStrip operator) ≠ "in" := by rcases hop with h | h | h | h | h <;> simp [h]
    have h2 : pyLower (pyStrip operator) ≠ "==" := by rcases hop with h | h | h | h | h <;> simp [h]
    have h3 : pyLower (pyStrip operator) ≠ "!=" := by rcases hop with h | h | h | h | h <;> simp [h]
    rw [if_neg h1, if_neg h2, if_neg h3, hfv]
  · intro hop hpv
    have h1 : pyLower (pyStrip operator) ≠ "in" := by rcases hop with h | h | h | h <;> simp [h]
    have h2 : pyLower (pyStrip operator) ≠ "==" := by rcases hop with h | h | h | h <;> simp [h]
    have h3 : pyLower (pyStrip operator) ≠ "!=" := by rcases hop with h | h | h | h <;> simp [h]
    have h4 : pyLower (pyStrip operator) ≠ "between" := by
      rcases hop with h | h | h | h <;> simp [h]
    rw [if_neg h1, if_neg h2, if_neg h3]
    cases hv : pyFloat? (lookupField parcel field) with
    | none => rfl
    | some vn =>
      dsimp only
      rw [if_neg h4, hpv]
  · intro hop hbb
    have h1 : pyLower (pyStrip operator) ≠ "in" := by simp [hop]
    have h2 : pyLower (pyStrip operator) ≠ "==" := by simp [hop]
    have h3 : pyLower (pyStrip operator) ≠ "!=" := by simp [hop]
    rw [if_neg h1, if_neg h2, if_neg h3]
    cases hv : pyFloat? (lookupField parcel field) with
    | none => rfl
    | some vn =>
      dsimp only
      rw [if_pos hop, hbb]

/-- Witness for C4: the spec's own example `evaluate({}, "slope_percent",
"<=", "8")` is `false` (missing field on a numeric branch), and an unknown
operator is `false`. -/
theorem check_condition_fail_closed_witness :
    check_condition [] "slope_percent" "<=" "8" = false ∧
      check_condition [("x", .pnum 1)] "x" "contains" "1" = false := by
  constructor
  · exact (check_condition_fail_closed [] "slope_percent" "<=" "8").2.1 (by decide) (by decide)
  · exact (check_condition_fail_closed [("x", .pnum 1)] "x" "contains" "1").1 (by decide)

/-- C8: the `in` operator is a pure, case-sensitive string membership test:
the string form of the parcel's field value (the missing field printing as
`None`) against the comma-split, token-trimmed value; in particular
`cropland` matches `"cropland, pasture"` and `Cropland` does not. -/
theorem check_condition_in_spec :
    (∀ (parcel : Parcel) (field value : String),
      check_condition parcel field "in" value =
        ((pySplitComma value).map pyStrip).contains (pyStr (lookupField parcel field)))
    ∧ check_condition [("land_cover", .pstr "cropland")] "land_cover" "in" "cropland, pasture"
        = true
    ∧ check_condition [("land_cover", .pstr "Cropland")] "land_cover" "in" "cropland, pasture"
        = false
    ∧ check_condition [] "land_cover" "in" "cropland, pasture, None" = true := by
  refine ⟨fun parcel field value => rfl, by decide, by decide, by decide⟩

/-- C9 counterexample: the claim says every defined operator requires a
non-empty value to evaluate `true`, but `!=` with an empty value string is
`true` on a missing field (`str(None) = "None" ≠ ""`). -/
theorem check_condition_empty_value_cex :
    check_condition [] "x" "!=" "" = true := by decide

/-- C9 amended: with an empty value string the numeric operators
(between, >, <, >=, <=) always return `false`, while the string operators
compare against the empty string literally: `in` and `==` are `true` iff
the string form of the field's value is empty, and `!=` iff it is
non-empty. -/
theorem check_condition_empty_value_amended :
    ∀ (parcel : Parcel) (field : String),
      (∀ op ∈ (["between", ">", "<", ">=", "<="] : List String),
        check_condition parcel field op "" = false)
      ∧ (check_condition parcel field "in" "" = true ↔
          pyStr (lookupField parcel field) = "")
      ∧ (check_condition parcel field "==" "" = true ↔
          pyStr (lookupField parcel field) = "")
      ∧ (check_condition parcel field "!=" "" = true ↔
          pyStr (lookupField parcel field) ≠ "") := by
  intro parcel field
  refine ⟨?_, ?_, ?_, ?_⟩
  · intro op hop
    simp only [List.mem_cons, List.not_mem_nil, or_false] at hop
    rcases hop with h | h | h | h | h
    · subst h
      have := (check_condition_fail_closed parcel field "between" "").2.2.2.2 rfl rfl
      exact this
    · subst h
      exact (check_condition_fail_closed parcel field ">" "").2.2.2.1 (by decide) rfl
    · subst h
      exact (check_condition_fail_closed parcel field "<" "").2.2.2.1 (by decide) rfl
    · subst h
      exact (check_condition_fail_closed parcel field ">=" "").2.2.2.1 (by decide) rfl
    · subst h
      exact (check_condition_fail_closed parcel field "<=" "").2.2.2.1 (by decide) rfl
  · show ((([""] : List String).map pyStrip).contains (pyStr (lookupField parcel field)) = true)
      ↔ _
    simp [List.contains, pyStrip, trimChars, eq_comm]
  · show ((pyStr (lookupField parcel field) == "") = true) ↔ _
    simp
  · show ((pyStr (lookupField parcel field) != "") = true) ↔ _
    simp

/-- Witness for C9's amended claim: a numeric operator with an empty value
on a concrete parcel. -/
theorem check_condition_empty_value_amended_witness :
    check_condition [("x", .pnum 1)] "x" ">" "" = false :=
  (check_condition_empty_value_amended [("x", .pnum 1)] "x").1 ">" (by decide)

/-- On a rule map with pairwise distinct keys (as every Python dict has),
pair membership coincides with key lookup. -/
theorem mem_iff_lookupRule (m : RuleMap) :
    (m.map Prod.fst).Nodup → ∀ (code : String) (conds : List Condition),
      ((code, conds) ∈ m ↔ lookupRule m code = some conds) := by
  induction m with
  | nil =>
    intro _ code conds
    simp [lookupRule]
  | cons hd tl ih =>
    intro h code conds
    rcases hd with ⟨k, cs⟩
    simp only [List.map_cons, List.nodup_cons] at h
    obtain ⟨hk, htl⟩ := h
    simp only [lookupRule, List.mem_cons]
    by_cases hkc : k = code
    · subst hkc
      rw [if_pos rfl]
      constructor
      · rintro (h1 | h1)
        · simp only [Prod.mk.injEq, true_and] at h1
          rw [h1]
        · exact absurd (List.mem_map_of_mem Prod.fst h1) hk
      · intro h1
        injection h1 with h1
        left
        rw [h1]
    · rw [if_neg hkc]
      constructor
      · rintro (h1 | h1)
        · exact absurd (congrArg Prod.fst h1).symm hkc
        · exact (ih htl code conds).mp h1
      · intro h1
        right
        exact (ih htl code conds).mpr h1

/-- C2: a practice code is eligible iff it is a key of the rule map and
every one of its conditions passes; an empty rule map yields an empty
result; and with two conditions, satisfying only one of them excludes the
code. -/
theorem eligible_crp_practices_spec :
    (∀ parcel : Parcel, eligible_crp_practices parcel [] = [])
    ∧ (∀ (parcel : Parcel) (rule_map : RuleMap) (code : String),
        (rule_map.map Prod.fst).Nodup →
        (code ∈ eligible_crp_practices parcel rule_map ↔
          ∃ conds, lookupRule rule_map code = some conds ∧
            ∀ c ∈ conds, check_condition parcel c.field c.operator c.value = true))
    ∧ eligible_crp_practices [("land_cover", .pstr "cropland"), ("slope_percent", .pnum 12)]
        [("CP01", [⟨"land_cover", "in", "cropland,pasture"⟩, ⟨"slope_percent", "<=", "8"⟩])]
        = [] := by
  refine ⟨fun parcel => rfl, ?_, by decide⟩
  intro parcel rule_map code h
  by_cases hrm : rule_map = []
  · subst hrm
    simp [eligible_crp_practices, lookupRule]
  · have hne : rule_map.isEmpty = false := by
      cases rule_map with
      | nil => exact absurd rfl hrm
      | cons hd tl => rfl
    unfold eligible_crp_practices
    rw [if_neg (by rw [hne]; exact Bool.false_ne_true)]
    constructor
    · intro hmem
      obtain ⟨e, he, rfl⟩ := List.mem_map.mp hmem
      obtain ⟨hin, hP⟩ := List.mem_filter.mp he
      refine ⟨e.2, (mem_iff_lookupRule rule_map h e.1 e.2).mp (by simpa using hin), ?_⟩
      intro c hc
      exact List.all_eq_true.mp hP c hc
    · rintro ⟨conds, hlook, hall⟩
      have hmem : (code, conds) ∈ rule_map :=
        (mem_iff_lookupRule rule_map h code conds).mpr hlook
      exact List.mem_map.mpr
        ⟨(code, conds), List.mem_filter.mpr ⟨hmem, List.all_eq_true.mpr hall⟩, rfl⟩

/-- Witness for C2: the membership characterisation applied to a concrete
one-entry rule map with distinct keys. -/
theorem eligible_crp_practices_spec_witness :
    "CP01" ∈ eligible_crp_practices
        [("land_cover", .pstr "cropland"), ("slope_percent", .pnum 5)]
        [("CP01", [⟨"land_cover", "in", "cropland,pasture"⟩, ⟨"slope_percent", "<=", "8"⟩])] ↔
      ∃ conds,
        lookupRule
            [("CP01", [⟨"land_cover", "in", "cropland,pasture"⟩,
              ⟨"slope_percent", "<=", "8"⟩])] "CP01" = some conds ∧
          ∀ c ∈ conds,
            check_condition [("land_cover", .pstr "cropland"), ("slope_percent", .pnum 5)]
              c.field c.operator c.value = true :=
  eligible_crp_practices_spec.2.1
    [("land_cover", .pstr "cropland"), ("slope_percent", .pnum 5)]
    [("CP01", [⟨"land_cover", "in", "cropland,pasture"⟩, ⟨"slope_percent", "<=", "8"⟩])]
    "CP01" (by decide)

/-- C5: the builder never raises (it is a total function); a source whose
schema lacks any required column yields an empty map, and a row whose
code, field or operator is empty after trimming is skipped without
affecting the rows before or after it. -/
theorem build_crp_rule_map_tolerance :
    (∀ df : Df,
      ¬ (requiredCols.all
          (fun r => (df.columns.map (fun c => pyLower (pyStrip c))).contains r) = true) →
        build_crp_rule_map (some df) = [])
    ∧ (∀ (cols : List String) (pre post : List (List PyVal)) (row : List PyVal),
        (pyStrip (cellStr (cols.map (fun c => pyLower (pyStrip c))) row "crp_practice_code")
            = ""
          ∨ pyStrip (cellStr (cols.map (fun c => pyLower (pyStrip c))) row "field_name") = ""
          ∨ pyStrip (cellStr (cols.map (fun c => pyLower (pyStrip c))) row "operator") = "") →
        build_crp_rule_map (some ⟨cols, pre ++ row :: post⟩) =
          build_crp_rule_map (some ⟨cols, pre ++ post⟩)) := by
  constructor
  · intro df h
    simp only [build_crp_rule_map]
    rw [if_neg h]
  · intro cols pre post row hbad
    simp only [build_crp_rule_map]
    by_cases hreq : requiredCols.all
        (fun r => (cols.map (fun c => pyLower (pyStrip c))).contains r) = true
    · rw [if_pos hreq, if_pos hreq, List.foldl_append, List.foldl_append, List.foldl_cons]
      have hstep : ruleRowStep (cols.map (fun c => pyLower (pyStrip c)))
          (pre.foldl (ruleRowStep (cols.map (fun c => pyLower (pyStrip c)))) []) row =
          pre.foldl (ruleRowStep (cols.map (fun c => pyLower (pyStrip c)))) [] := by
        unfold ruleRowStep
        rw [if_pos hbad]
      rw [hstep]
    · rw [if_neg hreq, if_neg hreq]

/-- Witness for C5: a concrete sheet with an empty-operator middle row
builds the same map as the sheet without it, and a sheet lacking the value
column builds the empty map. -/
theorem build_crp_rule_map_tolerance_witness :
    build_crp_rule_map (some ⟨["crp_practice_code", "field_name", "operator", "value"],
        [[.pstr "CP01", .pstr "land_cover", .pstr "in", .pstr "cropland"]] ++
          ([.pstr "CP02", .pstr "x", .pstr "", .pstr "5"] ::
            [[.pstr "CP23", .pstr "hydric_percent", .pstr ">=", .pstr "20"]])⟩) =
      build_crp_rule_map (some ⟨["crp_practice_code", "field_name", "operator", "value"],
        [[.pstr "CP01", .pstr "land_cover", .pstr "in", .pstr "cropland"]] ++
          [[.pstr "CP23", .pstr "hydric_percent", .pstr ">=", .pstr "20"]]⟩) ∧
    build_crp_rule_map (some ⟨["crp_practice_code", "field_name", "operator"],
        [[.pstr "CP01", .pstr "land_cover", .pstr "in"]]⟩) = [] := by
  constructor
  · exact build_crp_rule_map_tolerance.2
      ["crp_practice_code", "field_name", "operator", "value"]
      [[.pstr "CP01", .pstr "land_cover", .pstr "in", .pstr "cropland"]]
      [[.pstr "CP23", .pstr "hydric_percent", .pstr ">=", .pstr "20"]]
      [.pstr "CP02", .pstr "x", .pstr "", .pstr "5"] (by decide)
  · exact build_crp_rule_map_tolerance.1
      ⟨["crp_practice_code", "field_name", "operator"],
        [[.pstr "CP01", .pstr "land_cover", .pstr "in"]]⟩ (by decide)

/-- Lookup after `setdefault`-append: the edited key gains the condition at
the end of its list, every other key is untouched. -/
theorem lookupRule_insertCond (m : RuleMap) (code code' : String) (c : Condition) :
    lookupRule (insertCond m code c) code' =
      if code = code' then some (((lookupRule m code').getD []) ++ [c])
      else lookupRule m code' := by
  induction m with
  | nil =>
    by_cases h : code = code' <;> simp [insertCond, lookupRule, h]
  | cons hd tl ih =>
    rcases hd with ⟨k, cs⟩
    simp only [insertCond]
    by_cases hk : k = code
    · subst hk
      rw [if_pos rfl]
      by_cases hkc : k = code' <;> simp [lookupRule, hkc]
    · rw [if_neg hk]
      by_cases hkc : k = code'
      · have hcc : code ≠ code' := fun h => hk (hkc.trans h.symm)
        simp [lookupRule, hkc, hcc]
      · simp [lookupRule, hkc, ih]

/-- The row fold, characterised against the specification-side row
reading: existing entries are extended in order, fresh codes appear
exactly when some row contributes to them. -/
theorem lookupRule_foldl (cols : List String) (rows : List (List PyVal)) :
    ∀ (m : RuleMap) (code : String),
      lookupRule (rows.foldl (ruleRowStep cols) m) code =
        match lookupRule m code with
        | some l => some (l ++ condsFromRows cols rows code)
        | none =>
          if condsFromRows cols rows code = [] then none
          else some (condsFromRows cols rows code) := by
  induction rows with
  | nil =>
    intro m code
    cases h : lookupRule m code <;> simp [h, condsFromRows]
  | cons r rs ih =>
    intro m code
    have hstep : ruleRowStep cols m r =
        match ruleRowEntry? cols r with
        | none => m
        | some e => insertCond m e.1 e.2 := by
      unfold ruleRowStep ruleRowEntry?
      by_cases h : (pyStrip (cellStr cols r "crp_practice_code") = ""
          ∨ pyStrip (cellStr cols r "field_name") = ""
          ∨ pyStrip (cellStr cols r "operator") = "")
      · rw [if_pos h, if_pos h]
      · rw [if_neg h, if_neg h]
    rw [List.foldl_cons, hstep]
    cases hre : ruleRowEntry? cols r with
    | none =>
      have hconds : condsFromRows cols (r :: rs) code = condsFromRows cols rs code := by
        simp [condsFromRows, List.filterMap_cons, hre]
      rw [ih m code, hconds]
    | some e =>
      dsimp only
      rw [ih (insertCond m e.1 e.2) code, lookupRule_insertCond]
      by_cases hec : e.1 = code
      · have hbeq : (e.1 == code) = true := beq_iff_eq.mpr hec
        have hconds : condsFromRows cols (r :: rs) code =
            e.2 :: condsFromRows cols rs code := by
          simp [condsFromRows, List.filterMap_cons, hre, List.filter_cons, hbeq]
        rw [if_pos hec, hconds]
        cases hm : lookupRule m code with
        | some l => simp
        | none => simp
      · have hconds : condsFromRows cols (r :: rs) code = condsFromRows cols rs code := by
          have hbeq : (e.1 == code) = false := by
            simp [hec]
          simp [condsFromRows, List.filterMap_cons, hre, List.filter_cons, hbeq]
        rw [if_neg hec, hconds]

/-- C6: the Rule Map invariant, as a full characterisation: looking up any
practice code in the built map yields exactly the row-ordered list of that
code's surviving conditions, and never an empty list (absent codes look up
to `none`). -/
theorem build_crp_rule_map_invariant :
    ∀ (df : Df) (code : String),
      lookupRule (build_crp_rule_map (some df)) code =
        if ruleCondsSpec df code = [] then none else some (ruleCondsSpec df code) := by
  intro df code
  simp only [build_crp_rule_map, ruleCondsSpec]
  by_cases hreq : requiredCols.all
      (fun r => ((df.columns.map (fun c => pyLower (pyStrip c))).contains r)) = true
  · rw [if_pos hreq, if_pos hreq, lookupRule_foldl]
    simp [lookupRule]
  · rw [if_neg hreq, if_neg hreq]
    simp [lookupRule]

/-- Bool-to-Prop bridge for the dryness conjunct of the Program-A filter. -/
theorem not_and3_eq_true_iff (a b w : Bool) :
    (!((a && b) && w)) = true ↔ ¬((a = true ∧ b = true) ∧ w = true) := by
  cases a <;> cases b <;> cases w <;> simp

/-- Bool-to-Prop bridge for the keep-predicate of the Program-B/C filters. -/
theorem keep_pred_eq_true_iff (w x e l : Bool) :
    ((!(w && !x)) && !(e && l)) = true ↔
      ¬((w = true ∧ ¬(x = true)) ∨ (e = true ∧ l = true)) := by
  cases w <;> cases x <;> cases e <;> cases l <;> simp

/-- C1: the layered Program-A policy of `filter_crp_by_gis`: developed
land-cover (case-insensitively) empties the practice list regardless of
rule map and quotes; otherwise a quote survives iff [the rule map is empty,
or the eligible set for the synthetic parcel is empty, or its code is in
the eligible set] and not [the parcel is dry upland and its name is
wetland-like].  An empty eligible set from a non-empty rule map thus
applies no rule filtering. -/
theorem filter_crp_by_gis_policy :
    ∀ (crp : CrpQuoteResponse) (gis : GISAttributes) (rule_map : RuleMap),
      (pyLower gis.land_cover = "developed" →
        (filter_crp_by_gis crp gis rule_map).practices = [])
      ∧ (pyLower gis.land_cover ≠ "developed" →
          ∀ p : CrpPracticeRevenue,
            (p ∈ (filter_crp_by_gis crp gis rule_map).practices ↔
              p ∈ crp.practices ∧
                (rule_map = [] ∨
                  eligible_crp_practices (crpParcel crp gis) rule_map = [] ∨
                  p.crp_practice_code ∈ eligible_crp_practices (crpParcel crp gis) rule_map) ∧
                ¬((gis.nwi_class = "NONE" ∧ gis.hydric_percent < 20) ∧
                  _is_wetland_like_name p.crp_practice_name = true))) := by
  intro crp gis rule_map
  constructor
  · intro h
    unfold filter_crp_by_gis
    rw [if_pos h]
  · intro h p
    unfold filter_crp_by_gis
    rw [if_neg h]
    dsimp only
    rw [List.mem_filter]
    refine and_congr_right fun _ => ?_
    rw [Bool.and_eq_true, not_and3_eq_true_iff]
    apply and_congr
    · by_cases hrm : rule_map = []
      · subst hrm
        simp
      · have hne : rule_map.isEmpty = false := by
          cases rule_map with
          | nil => exact absurd rfl hrm
          | cons hd tl => rfl
        simp [hne, hrm, List.isEmpty_iff]
    · simp only [beq_iff_eq, decide_eq_true_eq]

/-- Witness for C1: a developed parcel empties a one-quote response; a
non-developed dry parcel keeps a cover crop and drops a wetland practice. -/
theorem filter_crp_by_gis_policy_witness :
    (filter_crp_by_gis ⟨"MI", "Kent", 40, [⟨"CP01", "Cover Crop", 100, 4000, 40000⟩]⟩
        ⟨none, none, "Developed", 2, 10, "NONE", false, 100⟩ []).practices = [] ∧
    (⟨"CP23", "Wetland Restoration Buffer", 100, 4000, 40000⟩ ∈
        (filter_crp_by_gis ⟨"MI", "Kent", 40,
            [⟨"CP23", "Wetland Restoration Buffer", 100, 4000, 40000⟩]⟩
          ⟨none, none, "cropland", 2, 10, "NONE", false, 100⟩ []).practices ↔
      ⟨"CP23", "Wetland Restoration Buffer", 100, 4000, 40000⟩ ∈
          ([⟨"CP23", "Wetland Restoration Buffer", 100, 4000, 40000⟩] :
            List CrpPracticeRevenue) ∧
        (([] : RuleMap) = [] ∨
          eligible_crp_practices
              (crpParcel ⟨"MI", "Kent", 40,
                [⟨"CP23", "Wetland Restoration Buffer", 100, 4000, 40000⟩]⟩
                ⟨none, none, "cropland", 2, 10, "NONE", false, 100⟩) [] = [] ∨
          "CP23" ∈ eligible_crp_practices
              (crpParcel ⟨"MI", "Kent", 40,
                [⟨"CP23", "Wetland Restoration Buffer", 100, 4000, 40000⟩]⟩
                ⟨none, none, "cropland", 2, 10, "NONE", false, 100⟩) []) ∧
        ¬((("NONE" : String) = "NONE" ∧ (10 : ℚ) < 20) ∧
          _is_wetland_like_name "Wetland Restoration Buffer" = true)) := by
  constructor
  · exact (filter_crp_by_gis_policy
      ⟨"MI", "Kent", 40, [⟨"CP01", "Cover Crop", 100, 4000, 40000⟩]⟩
      ⟨none, none, "Developed", 2, 10, "NONE", false, 100⟩ []).1 (by decide)
  · exact (filter_crp_by_gis_policy
      ⟨"MI", "Kent", 40, [⟨"CP23", "Wetland Restoration Buffer", 100, 4000, 40000⟩]⟩
      ⟨none, none, "cropland", 2, 10, "NONE", false, 100⟩ []).2 (by decide)
      ⟨"CP23", "Wetland Restoration Buffer", 100, 4000, 40000⟩

/-- C3: the shared Program-B/Program-C policy: a quote is dropped iff its
name is wetland-like while the wetness signal is absent, or its name is
erosion-like while the slope is below 2; slope 1 drops a quote named
Terrace Construction and slope 5 retains it. -/
theorem filter_eqip_csp_policy :
    (∀ (eqip : EqipQuoteResponse) (gis : GISAttributes) (p : EqipPracticeQuote),
      p ∈ (filter_eqip_by_gis eqip gis).practices ↔
        p ∈ eqip.practices ∧
          ¬((_is_wetland_like_name p.scenario_name = true ∧
              ¬(gis.nwi_class ≠ "NONE" ∨ gis.hydric_percent ≥ 20)) ∨
            (_is_erosion_like_name p.scenario_name = true ∧ gis.slope_percent < 2)))
    ∧ (∀ (csp : CspQuoteResponse) (gis : GISAttributes) (p : CspPracticeQuote),
        p ∈ (filter_csp_by_gis csp gis).practices ↔
          p ∈ csp.practices ∧
            ¬((_is_wetland_like_name p.scenario_name = true ∧
                ¬(gis.nwi_class ≠ "NONE" ∨ gis.hydric_percent ≥ 20)) ∨
              (_is_erosion_like_name p.scenario_name = true ∧ gis.slope_percent < 2)))
    ∧ (filter_eqip_by_gis
        ⟨"MI", "Kent", 40,
          [⟨"600", "600-1", "Terrace Construction", "ac", "annual", 10, "per_acre",
            10, 400, 2000, 5⟩]⟩
        ⟨none, none, "cropland", 1, 10, "NONE", false, 100⟩).practices = []
    ∧ (filter_eqip_by_gis
        ⟨"MI", "Kent", 40,
          [⟨"600", "600-1", "Terrace Construction", "ac", "annual", 10, "per_acre",
            10, 400, 2000, 5⟩]⟩
        ⟨none, none, "cropland", 5, 10, "NONE", false, 100⟩).practices =
      [⟨"600", "600-1", "Terrace Construction", "ac", "annual", 10, "per_acre",
        10, 400, 2000, 5⟩] := by
  refine ⟨fun eqip gis p => ?_, fun csp gis p => ?_, by decide, by decide⟩
  · unfold filter_eqip_by_gis
    dsimp only
    rw [List.mem_filter]
    refine and_congr_right fun _ => ?_
    rw [keep_pred_eq_true_iff]
    simp only [Bool.or_eq_true, bne_iff_ne, decide_eq_true_eq, ge_iff_le]
  · unfold filter_csp_by_gis
    dsimp only
    rw [List.mem_filter]
    refine and_congr_right fun _ => ?_
    rw [keep_pred_eq_true_iff]
    simp only [Bool.or_eq_true, bne_iff_ne, decide_eq_true_eq, ge_iff_le]

/-- C7: each of the three filters returns an order-preserving subset of
the input practices (a sublist, so every retained entry is the input entry
itself, unmodified) and leaves state, county and acres unchanged. -/
theorem filters_frame_effect :
    (∀ (crp : CrpQuoteResponse) (gis : GISAttributes) (rule_map : RuleMap),
      List.Sublist (filter_crp_by_gis crp gis rule_map).practices crp.practices
        ∧ (filter_crp_by_gis crp gis rule_map).state = crp.state
        ∧ (filter_crp_by_gis crp gis rule_map).county = crp.county
        ∧ (filter_crp_by_gis crp gis rule_map).acres = crp.acres)
    ∧ (∀ (eqip : EqipQuoteResponse) (gis : GISAttributes),
        List.Sublist (filter_eqip_by_gis eqip gis).practices eqip.practices
          ∧ (filter_eqip_by_gis eqip gis).state = eqip.state
          ∧ (filter_eqip_by_gis eqip gis).county = eqip.county
          ∧ (filter_eqip_by_gis eqip gis).acres = eqip.acres)
    ∧ (∀ (csp : CspQuoteResponse) (gis : GISAttributes),
        List.Sublist (filter_csp_by_gis csp gis).practices csp.practices
          ∧ (filter_csp_by_gis csp gis).state = csp.state
          ∧ (filter_csp_by_gis csp gis).county = csp.county
          ∧ (filter_csp_by_gis csp gis).acres = csp.acres) := by
  refine ⟨fun crp gis rule_map => ?_, fun eqip gis => ?_, fun csp gis => ?_⟩
  · unfold filter_crp_by_gis
    by_cases h : pyLower gis.land_cover = "developed"
    · rw [if_pos h]
      exact ⟨List.nil_sublist _, rfl, rfl, rfl⟩
    · rw [if_neg h]
      exact ⟨List.filter_sublist _, rfl, rfl, rfl⟩
  · exact ⟨List.filter_sublist _, rfl, rfl, rfl⟩
  · exact ⟨List.filter_sublist _, rfl, rfl, rfl⟩

/-- The Python modulus with a positive modulus is nonnegative. -/
theorem pymod_nonneg (x m : ℚ) (hm : 0 < m) : 0 ≤ pymod x m := by
  unfold pymod
  have h1 : ((⌊x / m⌋ : ℚ)) ≤ x / m := Int.floor_le _
  have h2 : m * ((⌊x / m⌋ : ℚ)) ≤ m * (x / m) := mul_le_mul_of_nonneg_left h1 hm.le
  have h3 : m * (x / m) = x := by
    field_simp
  linarith

/-- Rounding to one decimal preserves the bound `2 ≤ q`. -/
theorem roundTo1_two_le {q : ℚ} (h : 2 ≤ q) : 2 ≤ roundTo1 q := by
  unfold roundTo1
  have h1 : (20 : ℚ) + 1 / 2 ≤ 10 * q + 1 / 2 := by linarith
  have h2 : (20 : ℤ) ≤ ⌊(10 : ℚ) * q + 1 / 2⌋ := by
    have hf := Int.floor_mono h1
    have h20 : ⌊(20 : ℚ) + 1 / 2⌋ = 20 := by decide
    rw [h20] at hf
    exact hf
  rw [round_eq]
  rw [le_div_iff₀ (by norm_num : (0 : ℚ) < 10)]
  calc (2 : ℚ) * 10 = ((20 : ℤ) : ℚ) := by norm_num
  _ ≤ ((⌊(10 : ℚ) * q + 1 / 2⌋ : ℤ) : ℚ) := by exact_mod_cast h2

/-- The slope estimator never goes below 2. -/
theorem slope_ge_two (lat lon : Option ℚ) (state : String) :
    2 ≤ _estimate_slope_percent lat lon state := by
  unfold _estimate_slope_percent
  cases lat with
  | none => norm_num
  | some la =>
    cases lon with
    | none => norm_num
    | some lo =>
      dsimp only
      have hb : (2 : ℚ) ≤
          (if ["colorado", "montana", "utah", "wyoming"].contains (pyLower state)
            then (8 : ℚ) else 2) := by
        split <;> norm_num
      have hm : 0 ≤ pymod |lo| 3 := pymod_nonneg _ 3 (by norm_num)
      linarith

/-- C10: every GIS record produced by `process_parcel_geometry` has slope
percent at least 2 (the estimator returns 2 without coordinates and
`base + (abs lon mod 3) ≥ 2` with them, and rounding preserves the bound);
consequently, on such records the low-slope flag of the Program-B/C
filters is false and the erosion-like suppression branch is never taken:
the filters reduce to pure wetland filtering. -/
theorem process_geometry_slope_floor :
    (∀ (pt : Option (ℚ × ℚ)) (state county : String),
      2 ≤ (process_parcel_geometry pt state county).slope_percent)
    ∧ (∀ (eqip : EqipQuoteResponse) (pt : Option (ℚ × ℚ)) (state county : String),
        (filter_eqip_by_gis eqip (process_parcel_geometry pt state county)).practices =
          eqip.practices.filter (fun p =>
            !(_is_wetland_like_name p.scenario_name &&
              !((process_parcel_geometry pt state county).nwi_class != "NONE" ||
                decide ((process_parcel_geometry pt state county).hydric_percent ≥ 20)))))
    ∧ (∀ (csp : CspQuoteResponse) (pt : Option (ℚ × ℚ)) (state county : String),
        (filter_csp_by_gis csp (process_parcel_geometry pt state county)).practices =
          csp.practices.filter (fun p =>
            !(_is_wetland_like_name p.scenario_name &&
              !((process_parcel_geometry pt state county).nwi_class != "NONE" ||
                decide ((process_parcel_geometry pt state county).hydric_percent ≥ 20))))) := by
  have hslope : ∀ (pt : Option (ℚ × ℚ)) (state county : String),
      2 ≤ (process_parcel_geometry pt state county).slope_percent := by
    intro pt state county
    unfold process_parcel_geometry
    dsimp only
    exact roundTo1_two_le (slope_ge_two _ _ _)
  refine ⟨hslope, ?_, ?_⟩
  · intro eqip pt state county
    have h2 : ¬ ((process_parcel_geometry pt state county).slope_percent < 2) :=
      not_lt.mpr (hslope pt state county)
    unfold filter_eqip_by_gis
    rw [decide_eq_false h2]
    simp
  · intro csp pt state county
    have h2 : ¬ ((process_parcel_geometry pt state county).slope_percent < 2) :=
      not_lt.mpr (hslope pt state county)
    unfold filter_csp_by_gis
    rw [decide_eq_false h2]
    simp

end LandEngine
